import Mathlib

/-!
Shallow embedding of the convergence/tunnel core of
`tools/run_tests/xds_k8s_test_driver/framework/infrastructure/k8s.py`:
the `simple_resource_get` decorator, the resource-fetch helpers of
`KubernetesNamespace`, its predicate helpers
(`_check_service_neg`, `_pod_started`, `_replicas_available`),
and the `PortForwarder` subprocess lifecycle (`__init__`, `connect`, `close`).

Kubernetes resource snapshots are embedded structurally: only the fields the
code reads (annotations, pod phase, available replica count) are kept.
Python exceptions are embedded as `Except` errors.
-/

set_option autoImplicit false

namespace K8s

/-- Failures the underlying kubernetes client call can raise:
`client.ApiException` carrying an HTTP status, or any other exception
(connectivity, etc.). -/
inductive ApiFailure where
  | apiException (status : Nat)
  | otherFailure (msg : String)
  deriving DecidableEq

/-- A Python runtime error raised by predicate code itself
(e.g. `TypeError` from `key in None`). -/
inductive PyRuntimeError where
  | typeError (msg : String)
  deriving DecidableEq

/-- `V1ObjectMeta`: the kubernetes client leaves `annotations` as `None`
when the object carries no annotation map. -/
structure V1ObjectMeta where
  annotations : Option (List (String × String))
  deriving DecidableEq

/-- `V1Service`, restricted to the fields the code reads. -/
structure V1Service where
  metadata : V1ObjectMeta
  deriving DecidableEq

structure V1ServiceAccount where
  metadata : V1ObjectMeta
  deriving DecidableEq

structure V1Namespace where
  metadata : V1ObjectMeta
  deriving DecidableEq

/-- `V1PodStatus.phase` is a plain string in the kubernetes client. -/
structure V1PodStatus where
  phase : String
  deriving DecidableEq

structure V1Pod where
  status : V1PodStatus
  deriving DecidableEq

/-- `V1DeploymentStatus.available_replicas` is `None` until first reported. -/
structure V1DeploymentStatus where
  available_replicas : Option Int
  deriving DecidableEq

structure V1Deployment where
  status : V1DeploymentStatus
  deriving DecidableEq

/-- `simple_resource_get`: wraps a fetch call; an `ApiException` with status
404 is swallowed and turned into `None`; every other failure is re-raised. -/
def simple_resource_get {α : Type} (call : Except ApiFailure α) :
    Except ApiFailure (Option α) :=
  match call with
  | .ok v => .ok (some v)
  | .error (.apiException s) =>
      if s = 404 then .ok none else .error (.apiException s)
  | .error e => .error e

/-- `KubernetesNamespace.get_service`, decorated with `@simple_resource_get`.
The argument is the result of the underlying
`read_namespaced_service` API call. -/
def get_service (call : Except ApiFailure V1Service) :
    Except ApiFailure (Option V1Service) :=
  simple_resource_get call

/-- `KubernetesNamespace.get_service_account`, decorated with
`@simple_resource_get`. -/
def get_service_account (call : Except ApiFailure V1ServiceAccount) :
    Except ApiFailure (Option V1ServiceAccount) :=
  simple_resource_get call

/-- `KubernetesNamespace.get` (fetch of the namespace itself), decorated with
`@simple_resource_get`. -/
def get_namespace (call : Except ApiFailure V1Namespace) :
    Except ApiFailure (Option V1Namespace) :=
  simple_resource_get call

/-- `KubernetesNamespace.get_deployment`, decorated with
`@simple_resource_get`. -/
def get_deployment (call : Except ApiFailure V1Deployment) :
    Except ApiFailure (Option V1Deployment) :=
  simple_resource_get call

/-- `KubernetesNamespace.get_pod`: NOT decorated with `@simple_resource_get`
in the source; the underlying call result, errors included, passes through
unchanged. -/
def get_pod (call : Except ApiFailure V1Pod) : Except ApiFailure V1Pod :=
  call

/-- `KubernetesNamespace.NEG_STATUS_META`. -/
def NEG_STATUS_META : String := "cloud.google.com/neg-status"

/-- `KubernetesNamespace._check_service_neg`:
`isinstance(service, V1Service) and NEG_STATUS_META in service.metadata.annotations`.
When `service` is absent the `isinstance` test short-circuits to `False`.
When the annotation map is `None`, the Python `in` operator raises
`TypeError`, embedded here as an `Except.error`. -/
def _check_service_neg (service : Option V1Service) :
    Except PyRuntimeError Bool :=
  match service with
  | none => .ok false
  | some svc =>
      match svc.metadata.annotations with
      | none => .error (.typeError "argument of type NoneType is not iterable")
      | some anns => .ok (decide (NEG_STATUS_META ∈ anns.map Prod.fst))

/-- `KubernetesNamespace._pod_started`:
`isinstance(pod, V1Pod) and pod.status.phase not in ('Pending', 'Unknown')`. -/
def _pod_started (pod : Option V1Pod) : Bool :=
  match pod with
  | none => false
  | some p => decide (p.status.phase ≠ "Pending" ∧ p.status.phase ≠ "Unknown")

/-- `KubernetesNamespace._replicas_available`:
`isinstance(deployment, V1Deployment) and
 deployment.status.available_replicas is not None and
 deployment.status.available_replicas >= count`. -/
def _replicas_available (deployment : Option V1Deployment) (count : Int) :
    Bool :=
  match deployment with
  | none => false
  | some d =>
      match d.status.available_replicas with
      | none => false
      | some n => decide (n ≥ count)

/-! ## PortForwarder -/

/-- `PortForwarder.PORT_FORWARD_LOCAL_ADDRESS`. -/
def PORT_FORWARD_LOCAL_ADDRESS : String := "127.0.0.1"

/-- A child process tracked by `self.subprocess`. `exitsWithinGrace` is the
environment fact of whether the process exits within the 5-second
`communicate(timeout=5)` grace period once killed. -/
structure TrackedProc where
  pid : Nat
  exitsWithinGrace : Bool
  deriving DecidableEq

/-- `PortForwarder` instance state (the fields set by `__init__`, with
`subprocess` as the tracked child). `ns` embeds the `namespace` field. -/
structure PortForwarder where
  context : String
  ns : String
  destination : String
  remote_port : Nat
  local_address : String
  local_port : Option Nat
  sub : Option TrackedProc
  deriving DecidableEq

/-- Python truthiness of `Optional[int]`: `None` and `0` are falsy. -/
def natTruthy : Option Nat → Bool
  | none => false
  | some n => !(n == 0)

/-- Python truthiness fallback `local_address or PORT_FORWARD_LOCAL_ADDRESS`:
`None` and the empty string are falsy. -/
def strOrDefault (s : Option String) (d : String) : String :=
  match s with
  | none => d
  | some s => if s = "" then d else s

/-- `PortForwarder.__init__`. -/
def mkPortForwarder (context ns destination : String) (remote_port : Nat)
    (local_port : Option Nat) (local_address : Option String) :
    PortForwarder :=
  { context := context
    ns := ns
    destination := destination
    remote_port := remote_port
    local_address := strOrDefault local_address PORT_FORWARD_LOCAL_ADDRESS
    local_port := local_port
    sub := none }

/-- The `port_mapping` argument: `"{local_port}:{remote_port}"` when
`self.local_port` is truthy, otherwise `":{remote_port}"`. -/
def portMapping (st : PortForwarder) : String :=
  if natTruthy st.local_port then
    let lpv := st.local_port.getD 0
    let rpv := st.remote_port
    s!"{lpv}:{rpv}"
  else
    let rpv := st.remote_port
    s!":{rpv}"

/-- The spawned `kubectl port-forward` command line. -/
def connectCmd (st : PortForwarder) : List String :=
  ["kubectl", "--context", st.context, "--namespace", st.ns, "port-forward",
   "--address", st.local_address, st.destination, portMapping st]

/-- `local_port_expected`:
`f"Forwarding from {local_address}:{local_port} -> {remote_port}"`. -/
def expectedLine (addr : String) (lp rp : Nat) : String :=
  s!"Forwarding from {addr}:{lp} -> {rp}"

/-! ### The handshake regex

`local_port_re = re.compile(f"Forwarding from {local_address}:([0-9]+) -> {remote_port}")`
searched with `re.search`. The address is interpolated into the pattern
unescaped, so its `.` characters are regex wildcards; addresses here are IP
literals/hostnames, so `.` is the only metacharacter modelled. Because the
capture group `[0-9]+` is immediately followed by the non-digit `" -> "`,
greedy matching with backtracking coincides with taking the maximal digit
run, and `re.search` tries start positions left to right. -/

/-- Match a literal pattern prefix, returning the remaining input. -/
def matchLit : List Char → List Char → Option (List Char)
  | [], s => some s
  | _ :: _, [] => none
  | p :: ps, c :: cs => if p = c then matchLit ps cs else none

/-- Match a pattern prefix in which `.` matches any character. -/
def matchDot : List Char → List Char → Option (List Char)
  | [], s => some s
  | _ :: _, [] => none
  | p :: ps, c :: cs => if p = '.' ∨ p = c then matchDot ps cs else none

/-- Split off the maximal leading run of ASCII digits. -/
def takeDigits : List Char → List Char × List Char
  | [] => ([], [])
  | c :: cs =>
      if c.isDigit then
        let r := takeDigits cs
        (c :: r.1, r.2)
      else ([], c :: cs)

/-- Value of a digit string, as computed by Python `int`. -/
def digitsToNat (ds : List Char) : Nat :=
  ds.foldl (fun a c => 10 * a + (c.toNat - 48)) 0

/-- Try the handshake pattern anchored at the current position: literal
`"Forwarding from "`, the address (with `.` wildcards), `':'`, a nonempty
digit run (the capture group), then literal `" -> {remote_port}"`. -/
def matchHere (addr rp : List Char) (s : List Char) : Option (List Char) :=
  match matchLit "Forwarding from ".toList s with
  | none => none
  | some s1 =>
      match matchDot addr s1 with
      | none => none
      | some s2 =>
          match matchLit [':'] s2 with
          | none => none
          | some s3 =>
              let dr := takeDigits s3
              if dr.1 = [] then none
              else
                match matchLit (" -> ".toList ++ rp) dr.2 with
                | none => none
                | some _ => some dr.1

/-- `re.search`: try the pattern at each start position, left to right. -/
def reSearchList (addr rp : List Char) : List Char → Option (List Char)
  | [] => matchHere addr rp []
  | c :: rest =>
      match matchHere addr rp (c :: rest) with
      | some ds => some ds
      | none => reSearchList addr rp rest

/-- `local_port_re.search(output)` followed by `int(groups[1])`: the captured
digits of the first match, parsed, or `none` when the line does not match. -/
def local_port_re_search (addr : String) (rp : Nat) (s : String) :
    Option Nat :=
  (reSearchList addr.toList (toString rp).toList s.toList).map digitsToNat

/-! ### The connect read loop -/

/-- Python `str.isspace` characters stripped by `str.strip()`. -/
def pyIsSpace (c : Char) : Bool :=
  c = ' ' || c = '\t' || c = '\n' || c = '\r' || c = '\x0b' || c = '\x0c'

/-- Python `str.strip()`: drop whitespace from both ends. -/
def pyStrip (s : String) : String :=
  String.mk (((s.data.dropWhile pyIsSpace).reverse.dropWhile pyIsSpace).reverse)

/-- One iteration of the read loop observes one `readline()` result (raw,
stripped by the loop) and, if that strips to empty, the `poll()` result at
that instant (`some code` once the child has exited). -/
structure Obs where
  line : String
  poll : Option Int
  deriving DecidableEq

/-- Behaviour of the spawned child process, as the `connect` loop can
observe it: successive `readline()` results, the lines `readlines()` drains
after an early exit, and whether the process exits within the kill grace
period of `close`. -/
structure ChildScript where
  pid : Nat
  obs : List Obs
  drained : List String
  exitsWithinGrace : Bool
  deriving DecidableEq

/-- `PortForwardingError`, with the data its message carries. -/
inductive PFError where
  | earlyExit (returnCode : Int) (output : List String)
  | unexpectedOutput (line : String)
  deriving DecidableEq

/-- Result of the `while True` read loop. -/
inductive LoopResult where
  /-- `break` reached; `some p` when the regex branch resolved local port
  `p`, `none` when the fixed-port branch matched verbatim. -/
  | ok (resolved : Option Nat)
  /-- `raise PortForwardingError(...)` inside the loop. -/
  | err (e : PFError)
  /-- Observation script exhausted: the real loop is still waiting. -/
  | stillWaiting
  deriving DecidableEq

/-- The `while True` loop of `connect`: strip the line; on empty, poll and
either raise with the drained output and exit code, or continue; on a
nonempty line, compare verbatim (fixed port) or regex-search (OS-picked
port). -/
def readLoop (fixed : Bool) (expected addr : String) (rp : Nat)
    (drained : List String) : List Obs → LoopResult
  | [] => .stillWaiting
  | o :: rest =>
      let output := pyStrip o.line
      if output = "" then
        match o.poll with
        | some code => .err (.earlyExit code drained)
        | none => readLoop fixed expected addr rp drained rest
      else
        if fixed then
          if output = expected then .ok none
          else .err (.unexpectedOutput output)
        else
          match local_port_re_search addr rp output with
          | some p => .ok (some p)
          | none => .err (.unexpectedOutput output)

/-- Outcome of `close()`. -/
inductive CloseOutcome where
  | ok
  /-- `subprocess.communicate(timeout=5)` raised `TimeoutExpired`. -/
  | timeoutExpired
  deriving DecidableEq

structure CloseResult where
  outcome : CloseOutcome
  /-- whether `subprocess.kill()` was invoked -/
  killCalled : Bool
  final : PortForwarder
  deriving DecidableEq

/-- `PortForwarder.close`: a no-op when no process is tracked; otherwise
`kill()` then `communicate(timeout=5)`. When the process exits within the
grace period the tracking is cleared (`self.subprocess = None`); when it
does not, `TimeoutExpired` propagates and the clearing line is never
reached. -/
def close (st : PortForwarder) : CloseResult :=
  match st.sub with
  | none => ⟨.ok, false, st⟩
  | some p =>
      if p.exitsWithinGrace then ⟨.ok, true, { st with sub := none }⟩
      else ⟨.timeoutExpired, true, st⟩

/-- Outcome of `connect()`. -/
inductive ConnectOutcome where
  | ok
  /-- a `PortForwardingError` propagated after the `except` block's
  `close()` returned -/
  | raised (e : PFError)
  /-- `close()` in the `except` block raised `TimeoutExpired` while the
  given error was being handled; `TimeoutExpired` propagates instead -/
  | raisedCloseTimeout (e : PFError)
  /-- observation script exhausted: the real call is still blocked -/
  | stillWaiting
  deriving DecidableEq

structure ConnectResult where
  cmd : List String
  outcome : ConnectOutcome
  closeCalled : Bool
  killCalled : Bool
  final : PortForwarder
  deriving DecidableEq

/-- Wire a loop result into the `connect` result: the `except Exception`
handler runs `close()` before re-raising. -/
def finishConnect (cmd : List String) (st : PortForwarder) :
    LoopResult → ConnectResult
  | .ok none => ⟨cmd, .ok, false, false, st⟩
  | .ok (some p) => ⟨cmd, .ok, false, false, { st with local_port := some p }⟩
  | .err e =>
      match close st with
      | ⟨.ok, k, fin⟩ => ⟨cmd, .raised e, true, k, fin⟩
      | ⟨.timeoutExpired, k, fin⟩ => ⟨cmd, .raisedCloseTimeout e, true, k, fin⟩
  | .stillWaiting => ⟨cmd, .stillWaiting, false, false, st⟩

/-- `PortForwarder.connect`, run against a child behaving as `script`:
build the command, spawn (track the child), pick the fixed-verbatim or
regex handshake branch by the truthiness of `self.local_port`, and run the
read loop under the `try/except` that closes on any error. -/
def connect (st0 : PortForwarder) (script : ChildScript) : ConnectResult :=
  let st : PortForwarder :=
    { st0 with sub := some ⟨script.pid, script.exitsWithinGrace⟩ }
  let fixed := natTruthy st0.local_port
  let expected :=
    expectedLine st0.local_address (st0.local_port.getD 0) st0.remote_port
  finishConnect (connectCmd st0) st
    (readLoop fixed expected st0.local_address st0.remote_port
      script.drained script.obs)

/-! ## Claims about the predicates and resource getters -/

/-- C1 (amended): `_check_service_neg` returns false for an
absent service and for a present service with an empty annotation map; for
a present annotation map it returns true iff the map contains the NEG
status key; but for a present service whose annotation map is missing
(`None`) it raises a `TypeError` rather than returning false. -/
theorem check_service_neg_spec :
    _check_service_neg none = .ok false ∧
    _check_service_neg (some ⟨⟨some []⟩⟩) = .ok false ∧
    (∀ anns : List (String × String),
        (_check_service_neg (some ⟨⟨some anns⟩⟩) = .ok true ↔
          NEG_STATUS_META ∈ anns.map Prod.fst)) ∧
    (∃ e, _check_service_neg (some ⟨⟨none⟩⟩) = .error e) := by
  refine ⟨rfl, rfl, ?_, ⟨_, rfl⟩⟩
  intro anns
  simp [_check_service_neg]

/-- C1 counterexample: on a present service whose annotation map is `None`,
`NEG_STATUS_META in service.metadata.annotations` raises `TypeError`; the
predicate does not return false. -/
theorem check_service_neg_none_map_raises :
    _check_service_neg (some ⟨⟨none⟩⟩) =
      .error (.typeError "argument of type NoneType is not iterable") := rfl

/-- C5 (amended): the four getters decorated with `@simple_resource_get`
(`get_service`, `get_service_account`, `get` on the namespace,
`get_deployment`) map a 404 `ApiException` to the absent sentinel and
propagate every other failure; `get_pod` is not decorated and propagates
every outcome of the underlying call unchanged, 404 included. -/
theorem resource_getters_contract (s : Nat) (hs : s ≠ 404) (m : String)
    (svc : V1Service) (sa : V1ServiceAccount) (nsp : V1Namespace)
    (d : V1Deployment) (pod : Except ApiFailure V1Pod) :
    (get_service (.error (.apiException 404)) = .ok none ∧
      get_service (.error (.apiException s)) = .error (.apiException s) ∧
      get_service (.error (.otherFailure m)) = .error (.otherFailure m) ∧
      get_service (.ok svc) = .ok (some svc)) ∧
    (get_service_account (.error (.apiException 404)) = .ok none ∧
      get_service_account (.error (.apiException s)) =
        .error (.apiException s) ∧
      get_service_account (.error (.otherFailure m)) =
        .error (.otherFailure m) ∧
      get_service_account (.ok sa) = .ok (some sa)) ∧
    (get_namespace (.error (.apiException 404)) = .ok none ∧
      get_namespace (.error (.apiException s)) = .error (.apiException s) ∧
      get_namespace (.error (.otherFailure m)) = .error (.otherFailure m) ∧
      get_namespace (.ok nsp) = .ok (some nsp)) ∧
    (get_deployment (.error (.apiException 404)) = .ok none ∧
      get_deployment (.error (.apiException s)) = .error (.apiException s) ∧
      get_deployment (.error (.otherFailure m)) = .error (.otherFailure m) ∧
      get_deployment (.ok d) = .ok (some d)) ∧
    get_pod pod = pod := by
  simp [get_service, get_service_account, get_namespace, get_deployment,
    get_pod, simple_resource_get, hs]

/-- C5 witness: the contract instantiated at status 403 (permission
denied). -/
theorem resource_getters_contract_witness :
    get_service (.error (.apiException 404)) = .ok none ∧
    get_service (.error (.apiException 403)) = .error (.apiException 403) ∧
    get_pod (.error (.apiException 404)) = .error (.apiException 404) := by
  have h := resource_getters_contract 403 (by decide) "conn refused"
    ⟨⟨some []⟩⟩ ⟨⟨some []⟩⟩ ⟨⟨some []⟩⟩ ⟨⟨none⟩⟩
    (.error (.apiException 404))
  exact ⟨h.1.1, h.1.2.1, h.2.2.2.2⟩

/-- C5 counterexample: `get_pod` does not map a 404 `ApiException` to the
absent sentinel; the exception propagates to the caller. -/
theorem get_pod_propagates_not_found :
    get_pod (.error (.apiException 404)) =
      Except.error (ApiFailure.apiException 404) := rfl

/-- C9: `_replicas_available` with count 3 is false on an absent
deployment, false when the available-replica count was never reported,
false at count 2, and true at counts 3 and 4; the unreported case is an
ordinary false, not an error. -/
theorem replicas_available_spec :
    _replicas_available none 3 = false ∧
    _replicas_available (some ⟨⟨none⟩⟩) 3 = false ∧
    _replicas_available (some ⟨⟨some 2⟩⟩) 3 = false ∧
    _replicas_available (some ⟨⟨some 3⟩⟩) 3 = true ∧
    _replicas_available (some ⟨⟨some 4⟩⟩) 3 = true := by
  decide

/-! ## Claims about close() -/

/-- C2 (amended): when the tracked process exits within the
`communicate(timeout=5)` grace period, `close()` returns normally and
clears the tracking; when it does not, `TimeoutExpired` propagates out of
`close()` and the process remains tracked. -/
theorem close_grace_behavior (st : PortForwarder) (p : TrackedProc)
    (h : st.sub = some p) :
    (p.exitsWithinGrace = true →
        (close st).outcome = .ok ∧ (close st).killCalled = true ∧
        (close st).final.sub = none) ∧
    (p.exitsWithinGrace = false →
        (close st).outcome = .timeoutExpired ∧
        (close st).final.sub = some p) := by
  constructor <;> intro hg <;> simp [close, h, hg]

/-- C2 witness: `close_grace_behavior` at a concrete tracked process that
exits within the grace period. -/
theorem close_grace_behavior_witness :
    (close ⟨"ctx", "default", "pod/x", 8080, "127.0.0.1", none,
        some ⟨1234, true⟩⟩).outcome = CloseOutcome.ok ∧
    (close ⟨"ctx", "default", "pod/x", 8080, "127.0.0.1", none,
        some ⟨1234, true⟩⟩).final.sub = none := by
  have h := (close_grace_behavior
    ⟨"ctx", "default", "pod/x", 8080, "127.0.0.1", none, some ⟨1234, true⟩⟩
    ⟨1234, true⟩ rfl).1 rfl
  exact ⟨h.1, h.2.2⟩

/-- C2 counterexample: for a tracked process that does not exit within the
grace period, `close()` does not return normally: `communicate(timeout=5)`
raises `TimeoutExpired` and the process stays tracked. -/
theorem close_unkillable_raises :
    (close ⟨"ctx", "default", "pod/x", 8080, "127.0.0.1", none,
        some ⟨1234, false⟩⟩).outcome = CloseOutcome.timeoutExpired ∧
    (close ⟨"ctx", "default", "pod/x", 8080, "127.0.0.1", none,
        some ⟨1234, false⟩⟩).final.sub = some ⟨1234, false⟩ := by
  exact ⟨rfl, rfl⟩

/-- C4: `close()` is idempotent: with no tracked process it is a no-op
(no kill attempted, state unchanged); after a first `close()` whose
process exits within the grace period, the tracking is cleared, and a
second `close()` on the resulting handle returns normally without
attempting another kill and without changing the state. -/
theorem close_idempotent (st : PortForwarder) :
    (st.sub = none → close st = ⟨.ok, false, st⟩) ∧
    (∀ p : TrackedProc, st.sub = some p → p.exitsWithinGrace = true →
        (close st).final.sub = none ∧
        close (close st).final = ⟨.ok, false, (close st).final⟩) := by
  constructor
  · intro h
    simp [close, h]
  · intro p hp hg
    simp [close, hp, hg]

/-- C4 witness: `close_idempotent` at a concrete handle with a tracked
process, and at the handle the first close leaves behind. -/
theorem close_idempotent_witness :
    (close (close ⟨"ctx", "default", "pod/x", 8080, "127.0.0.1", none,
        some ⟨1234, true⟩⟩).final).killCalled = false := by
  have h := (close_idempotent
    ⟨"ctx", "default", "pod/x", 8080, "127.0.0.1", none,
      some ⟨1234, true⟩⟩).2 ⟨1234, true⟩ rfl rfl
  rw [h.2]

/-! ## Claims about connect() -/

/-- C6: in the read loop, an empty (stripped) line is not an error: when
`poll()` reports the child already exited with some code, the loop drains
the remaining output and raises `PortForwardingError` carrying that exit
code and the drained lines; when the child is still alive, the loop simply
continues with the next read. -/
theorem readLoop_empty_line (fixed : Bool) (expected addr : String)
    (rp : Nat) (drained : List String) (o : Obs) (rest : List Obs)
    (hempty : pyStrip o.line = "") :
    (∀ code : Int, o.poll = some code →
        readLoop fixed expected addr rp drained (o :: rest) =
          .err (.earlyExit code drained)) ∧
    (o.poll = none →
        readLoop fixed expected addr rp drained (o :: rest) =
          readLoop fixed expected addr rp drained rest) := by
  constructor
  · intro code hc
    simp [readLoop, hempty, hc]
  · intro hc
    simp [readLoop, hempty, hc]

/-- C6 witness: `readLoop_empty_line` at a child that exits with code 1
before emitting any handshake line, with one captured output line. -/
theorem readLoop_empty_line_witness :
    readLoop false "" "127.0.0.1" 8080 ["error: boom"] [⟨"", some 1⟩] =
      .err (.earlyExit 1 ["error: boom"]) :=
  (readLoop_empty_line false "" "127.0.0.1" 8080 ["error: boom"]
    ⟨"", some 1⟩ [] (by decide)).1 1 rfl

/-- C3: whenever `connect` propagates an error out of its handshake loop,
the `except Exception` handler has already invoked `close()` (and hence
`kill()`) on the partially-started process; if that process exits within
the kill grace period, the final state tracks no process. -/
theorem connect_failure_closes (st0 : PortForwarder) (script : ChildScript)
    (e : PFError)
    (h : (connect st0 script).outcome = .raised e ∨
         (connect st0 script).outcome = .raisedCloseTimeout e) :
    (connect st0 script).closeCalled = true ∧
    (connect st0 script).killCalled = true ∧
    (script.exitsWithinGrace = true →
        (connect st0 script).final.sub = none) := by
  obtain ⟨pid, obs, drained, grace⟩ := script
  revert h
  simp only [connect]
  generalize readLoop (natTruthy st0.local_port)
      (expectedLine st0.local_address (st0.local_port.getD 0) st0.remote_port)
      st0.local_address st0.remote_port drained obs = lr
  intro h
  cases lr with
  | ok r =>
      cases r <;> simp [finishConnect] at h
  | stillWaiting =>
      simp [finishConnect] at h
  | err e2 =>
      cases grace <;> simp [finishConnect, close]

/-- C3 witness: `connect_failure_closes` at a child emitting a malformed
handshake line, with an OS-picked local port. -/
theorem connect_failure_closes_witness :
    (connect (mkPortForwarder "ctx" "default" "pod/x" 8080 none none)
        ⟨7, [⟨"garbage", none⟩], [], true⟩).closeCalled = true ∧
    (connect (mkPortForwarder "ctx" "default" "pod/x" 8080 none none)
        ⟨7, [⟨"garbage", none⟩], [], true⟩).final.sub = none := by
  have h := connect_failure_closes
    (mkPortForwarder "ctx" "default" "pod/x" 8080 none none)
    ⟨7, [⟨"garbage", none⟩], [], true⟩
    (.unexpectedOutput "garbage") (Or.inl (by rfl))
  exact ⟨h.1, h.2.2 rfl⟩

theorem finishConnect_cmd (cmd : List String) (st : PortForwarder)
    (lr : LoopResult) : (finishConnect cmd st lr).cmd = cmd := by
  cases lr with
  | ok r => cases r <;> rfl
  | stillWaiting => rfl
  | err e =>
      rcases hc : close st with ⟨o, k, fin⟩
      cases o <;> simp [finishConnect, hc]

theorem finishConnect_outcome_eq (cmd1 cmd2 : List String)
    (st1 st2 : PortForwarder) (hsub : st1.sub = st2.sub) (lr : LoopResult) :
    (finishConnect cmd1 st1 lr).outcome =
      (finishConnect cmd2 st2 lr).outcome := by
  cases lr with
  | ok r => cases r <;> rfl
  | stillWaiting => rfl
  | err e =>
      have hclose : (close st1).outcome = (close st2).outcome := by
        unfold close
        rw [hsub]
        cases hs2 : st2.sub with
        | none => rfl
        | some p =>
            dsimp only
            split_ifs <;> rfl
      rcases h1 : close st1 with ⟨o1, k1, f1⟩
      rcases h2 : close st2 with ⟨o2, k2, f2⟩
      rw [h1, h2] at hclose
      simp only at hclose
      subst hclose
      cases o1 <;> simp [finishConnect, h1, h2]

/-- C7: with no requested local port, a line on which the handshake regex
finds a match makes `connect` succeed and store the captured digits as the
resolved local port; a line with no match raises `PortForwardingError`
(and the failed process is closed). -/
theorem connect_auto_port (st0 : PortForwarder) (script : ChildScript)
    (line : String) (po : Option Int) (rest : List Obs)
    (hlp : st0.local_port = none)
    (hobs : script.obs = ⟨line, po⟩ :: rest)
    (hne : ¬ pyStrip line = "")
    (hgrace : script.exitsWithinGrace = true) :
    (∀ p : Nat,
        local_port_re_search st0.local_address st0.remote_port
            (pyStrip line) = some p →
        (connect st0 script).outcome = .ok ∧
        (connect st0 script).final.local_port = some p) ∧
    (local_port_re_search st0.local_address st0.remote_port
          (pyStrip line) = none →
        (connect st0 script).outcome =
          .raised (.unexpectedOutput (pyStrip line)) ∧
        (connect st0 script).final.sub = none) := by
  obtain ⟨pid, obs, drained, grace⟩ := script
  simp only at hobs hgrace
  subst hobs
  subst hgrace
  constructor
  · intro p hp
    simp [connect, readLoop, finishConnect, hlp, natTruthy, hne, hp]
  · intro hp
    simp [connect, readLoop, finishConnect, close, hlp, natTruthy, hne, hp]

/-- C7 witness: `connect_auto_port` at a child emitting
`Forwarding from 127.0.0.1:54321 -> 8080` for remote port 8080. -/
theorem connect_auto_port_witness :
    (connect (mkPortForwarder "ctx" "default" "pod/x" 8080 none none)
        ⟨7, [⟨"Forwarding from 127.0.0.1:54321 -> 8080", none⟩], [],
          true⟩).outcome = ConnectOutcome.ok ∧
    (connect (mkPortForwarder "ctx" "default" "pod/x" 8080 none none)
        ⟨7, [⟨"Forwarding from 127.0.0.1:54321 -> 8080", none⟩], [],
          true⟩).final.local_port = some 54321 :=
  (connect_auto_port (mkPortForwarder "ctx" "default" "pod/x" 8080 none none)
    ⟨7, [⟨"Forwarding from 127.0.0.1:54321 -> 8080", none⟩], [], true⟩
    "Forwarding from 127.0.0.1:54321 -> 8080" none []
    rfl rfl (by decide) rfl).1 54321 (by rfl)

/-- C8: with a fixed requested local port, the first nonempty (stripped)
line must equal the expected `Forwarding from <addr>:<port> -> <rport>`
string verbatim: a matching line makes `connect` succeed with the local
port unchanged, any other line immediately raises `PortForwardingError`
(whatever output would follow), and the failed process is closed. -/
theorem connect_fixed_port (st0 : PortForwarder) (script : ChildScript)
    (lp : Nat) (line : String) (po : Option Int) (rest : List Obs)
    (hlp : st0.local_port = some lp) (hlp0 : lp ≠ 0)
    (hobs : script.obs = ⟨line, po⟩ :: rest)
    (hne : ¬ pyStrip line = "")
    (hgrace : script.exitsWithinGrace = true) :
    (pyStrip line = expectedLine st0.local_address lp st0.remote_port →
        (connect st0 script).outcome = .ok ∧
        (connect st0 script).final.local_port = some lp) ∧
    (¬ pyStrip line = expectedLine st0.local_address lp st0.remote_port →
        (connect st0 script).outcome =
          .raised (.unexpectedOutput (pyStrip line)) ∧
        (connect st0 script).final.sub = none) := by
  obtain ⟨pid, obs, drained, grace⟩ := script
  simp only at hobs hgrace
  subst hobs
  subst hgrace
  constructor
  · intro heq
    have hne2 : ¬ expectedLine st0.local_address lp st0.remote_port = "" :=
      heq ▸ hne
    simp [connect, readLoop, finishConnect, hlp, hlp0, natTruthy, hne2, heq]
  · intro heq
    simp [connect, readLoop, finishConnect, close, hlp, hlp0, natTruthy,
      hne, heq]

/-- C8 witness: `connect_fixed_port` at requested local port 5001 and the
matching verbatim line. -/
theorem connect_fixed_port_witness :
    (connect (mkPortForwarder "ctx" "default" "pod/x" 8080 (some 5001) none)
        ⟨7, [⟨"Forwarding from 127.0.0.1:5001 -> 8080", none⟩], [],
          true⟩).outcome = ConnectOutcome.ok :=
  ((connect_fixed_port
    (mkPortForwarder "ctx" "default" "pod/x" 8080 (some 5001) none)
    ⟨7, [⟨"Forwarding from 127.0.0.1:5001 -> 8080", none⟩], [], true⟩
    5001 "Forwarding from 127.0.0.1:5001 -> 8080" none []
    rfl (by decide) rfl (by decide) rfl).1 (by rfl)).1

/-- C10: a requested local port of 0 is treated like no requested port:
the Python truthiness test `if self.local_port:` is false, so the port
mapping, the spawned command and the connect outcome coincide with the
no-port case, the handshake is resolved through the digits pattern, and an
empty-string bind address falls back to the default `127.0.0.1`. -/
theorem zero_local_port_like_none (context ns dest : String) (rp : Nat)
    (addr : Option String) (script : ChildScript) :
    portMapping (mkPortForwarder context ns dest rp (some 0) addr) =
      portMapping (mkPortForwarder context ns dest rp none addr) ∧
    (connect (mkPortForwarder context ns dest rp (some 0) addr) script).cmd =
      (connect (mkPortForwarder context ns dest rp none addr) script).cmd ∧
    (connect (mkPortForwarder context ns dest rp (some 0) addr)
        script).outcome =
      (connect (mkPortForwarder context ns dest rp none addr)
        script).outcome ∧
    (∀ (line : String) (po : Option Int) (rest : List Obs) (p : Nat),
        script.obs = ⟨line, po⟩ :: rest →
        ¬ pyStrip line = "" →
        local_port_re_search (strOrDefault addr PORT_FORWARD_LOCAL_ADDRESS)
            rp (pyStrip line) = some p →
        (connect (mkPortForwarder context ns dest rp (some 0) addr)
            script).final.local_port = some p) ∧
    (mkPortForwarder context ns dest rp (some 0) (some "")).local_address =
      "127.0.0.1" := by
  refine ⟨?_, ?_, ?_, ?_, rfl⟩
  · simp [portMapping, mkPortForwarder, natTruthy]
  · simp only [connect]
    rw [finishConnect_cmd, finishConnect_cmd]
    simp [connectCmd, mkPortForwarder, portMapping, natTruthy]
  · have hnt : natTruthy (some 0) = natTruthy none := by decide
    simp only [connect, mkPortForwarder, Option.getD, hnt]
    apply finishConnect_outcome_eq
    rfl
  · intro line po rest p hobs hne hp
    obtain ⟨pid, obs, drained, grace⟩ := script
    simp only at hobs
    subst hobs
    simp [connect, readLoop, finishConnect, mkPortForwarder, natTruthy,
      hne, hp]

/-- C10 witness: `zero_local_port_like_none` with remote port 8080 and a
child emitting `Forwarding from 127.0.0.1:54321 -> 8080`. -/
theorem zero_local_port_like_none_witness :
    (connect (mkPortForwarder "ctx" "default" "pod/x" 8080 (some 0) none)
        ⟨7, [⟨"Forwarding from 127.0.0.1:54321 -> 8080", none⟩], [],
          true⟩).final.local_port = some 54321 := by
  have h := zero_local_port_like_none "ctx" "default" "pod/x" 8080 none
    ⟨7, [⟨"Forwarding from 127.0.0.1:54321 -> 8080", none⟩], [], true⟩
  exact h.2.2.2.1 "Forwarding from 127.0.0.1:54321 -> 8080" none [] 54321
    rfl (by decide) (by rfl)

end K8s
